import Mathlib

/-!
Shallow embedding of the ai-log repository core: the batching sink
(src/sdk/mongo_logger.py, class MongoHandler) and the query engine
(src/monitor/db.py, class LogDatabase, plus the hourly grouping in
src/monitor/app.py). Timestamps are stored by the code as UTC ISO-8601
strings whose lexicographic order agrees with chronological order; the
embedding abstracts such an instant as a natural number of minutes, so
that every string comparison the code performs on timestamps is modelled
by the corresponding comparison on naturals.
-/

/-- A persisted log document as stored in the collection: the MongoDB
assigned identifier plus the fields written by MongoHandler.format_record
that the query engine reads. -/
structure StoredLog where
  id : String
  timestamp : Nat
  service_name : String
  level : String
  message : String
deriving DecidableEq, Repr

/-- The LogDatabase DAO of src/monitor/db.py: the connected flag set in
init (false when the MongoClient construction or server check fails) and
the content of the collection it reads. -/
structure LogDatabase where
  connected : Bool
  collection : List StoredLog
deriving DecidableEq, Repr

/-- A hexadecimal digit, as accepted inside a BSON ObjectId string. -/
def isHexDigitChar (c : Char) : Bool :=
  c.isDigit || (Char.ofNat 97 ≤ c && c ≤ Char.ofNat 102) ||
    (Char.ofNat 65 ≤ c && c ≤ Char.ofNat 70)

/-- Validity of a string as a BSON ObjectId: the bson.ObjectId
constructor accepts exactly a 24 character hexadecimal string (it raises
InvalidId otherwise). -/
def isValidObjectId (s : String) : Bool :=
  s.length == 24 && s.toList.all isHexDigitChar

/-- LogDatabase.get_log_by_id (src/monitor/db.py lines 35 to 44): returns
none when not connected or the id is falsy; the ObjectId construction for
a malformed id raises and the bare except returns none; otherwise
find_one on the id field. -/
def get_log_by_id (db : LogDatabase) (log_id : String) : Option StoredLog :=
  if !db.connected || log_id.isEmpty then none
  else if !isValidObjectId log_id then none
  else db.collection.find? (fun l => l.id == log_id)

/-- The MongoDB filter document built by LogDatabase.get_logs: optional
equality on service_name and level, optional inclusive timestamp bounds,
optional case-insensitive regex on message. -/
structure MongoQuery where
  service : Option String
  level : Option String
  ts_gte : Option Nat
  ts_lte : Option Nat
  message_regex : Option String
deriving DecidableEq, Repr

/-- Query construction of LogDatabase.get_logs (src/monitor/db.py lines
64 to 86), following Python truthiness: a service or level that is None,
empty, or the sentinel All adds no clause; a start or end time adds an
inclusive bound; a non-empty search text adds the regex clause. -/
def buildQuery (service level : Option String) (start_time end_time : Option Nat)
    (search_text : Option String) : MongoQuery :=
  { service := match service with
      | some s => if s ≠ "" && s ≠ "All" then some s else none
      | none => none
    level := match level with
      | some s => if s ≠ "" && s ≠ "All" then some s else none
      | none => none
    ts_gte := start_time
    ts_lte := end_time
    message_regex := match search_text with
      | some t => if t ≠ "" then some t else none
      | none => none }

/-- Whether the first character list occurs contiguously inside the
second. -/
def charsInfixOf (pat : List Char) : List Char → Bool
  | [] => pat.isEmpty
  | c :: cs => pat.isPrefixOf (c :: cs) || charsInfixOf pat cs

/-- Case-insensitive substring containment, the semantics of the MongoDB
regex clause with option i for the literal (metacharacter-free) patterns
this application sends. -/
def ciSubstr (pat s : String) : Bool :=
  charsInfixOf pat.toLower.toList s.toLower.toList

/-- Whether a stored document matches a MongoDB filter: the conjunction
of all clauses present in the filter. -/
def matchesQuery (q : MongoQuery) (l : StoredLog) : Bool :=
  (match q.service with | some s => l.service_name == s | none => true) &&
  (match q.level with | some s => l.level == s | none => true) &&
  (match q.ts_gte with | some t => decide (t ≤ l.timestamp) | none => true) &&
  (match q.ts_lte with | some t => decide (l.timestamp ≤ t) | none => true) &&
  (match q.message_regex with | some p => ciSubstr p l.message | none => true)

/-- Insertion into a list already sorted by timestamp descending. -/
def insertDesc (x : StoredLog) : List StoredLog → List StoredLog
  | [] => [x]
  | y :: ys => if y.timestamp < x.timestamp then x :: y :: ys else y :: insertDesc x ys

/-- The sort performed by cursor.sort applied to the timestamp key with
direction -1: newest first. -/
def sortDescTimestamp (ls : List StoredLog) : List StoredLog :=
  ls.foldr insertDesc []

/-- The semantics of cursor.limit in pymongo and MongoDB: a limit of 0 is
documented as equivalent to setting no limit at all, while a positive
limit caps the result. -/
def mongoLimit (limit : Nat) (ls : List StoredLog) : List StoredLog :=
  if limit == 0 then ls else ls.take limit

/-- LogDatabase.get_logs (src/monitor/db.py lines 46 to 97): empty result
when not connected, otherwise find with the built filter, sorted by
timestamp descending, with cursor.limit applied. -/
def get_logs (db : LogDatabase) (limit : Nat) (service level : Option String)
    (start_time end_time : Option Nat) (search_text : Option String) : List StoredLog :=
  if !db.connected then []
  else
    mongoLimit limit (sortDescTimestamp
      (db.collection.filter (matchesQuery (buildQuery service level start_time end_time search_text))))

/-- The statistics dictionary returned by LogDatabase.get_stats. -/
structure Stats where
  total_logs : Nat
  error_logs : Nat
  service_counts : List (String × Nat)
deriving DecidableEq, Repr

/-- The group aggregation of LogDatabase.get_stats: one count per
distinct service_name present in the collection. -/
def groupCounts (ls : List StoredLog) : List (String × Nat) :=
  (ls.map (fun l => l.service_name)).dedup.map
    (fun s => (s, (ls.filter (fun l => l.service_name == s)).length))

/-- LogDatabase.get_stats (src/monitor/db.py lines 99 to 129): zeros and
an empty mapping when not connected; otherwise the total document count,
the count of documents at level ERROR, and the per-service group counts. -/
def get_stats (db : LogDatabase) : Stats :=
  if !db.connected then { total_logs := 0, error_logs := 0, service_counts := [] }
  else
    { total_logs := db.collection.length
      error_logs := (db.collection.filter (fun l => l.level == "ERROR")).length
      service_counts := groupCounts db.collection }

/-- LogDatabase.get_error_trend (src/monitor/db.py lines 131 to 146):
empty when not connected; otherwise the ERROR documents of the last 24
hours (1440 minutes), projected to timestamp and service_name only. -/
def get_error_trend (db : LogDatabase) (now : Nat) : List (Nat × String) :=
  if !db.connected then []
  else
    (db.collection.filter
      (fun l => l.level == "ERROR" && decide (now - 1440 ≤ l.timestamp))).map
      (fun l => (l.timestamp, l.service_name))

/-- Truncation of an instant down to the start of its hour, the dt.floor
operation applied with a one hour frequency in src/monitor/app.py. -/
def floorHour (t : Nat) : Nat := t / 60 * 60

/-- Removal of duplicate group keys, keeping the first occurrence of
each. -/
def dedupKeys (l : List (Nat × String)) : List (Nat × String) :=
  l.foldl (fun acc k => if acc.contains k then acc else acc ++ [k]) []

/-- Insertion into a key list already in ascending order of hour bucket
and then service name. -/
def insertKeyAsc (x : Nat × String) : List (Nat × String) → List (Nat × String)
  | [] => [x]
  | y :: ys =>
    if x.1 < y.1 || (x.1 == y.1 && !(y.2 < x.2)) then x :: y :: ys
    else y :: insertKeyAsc x ys

/-- Ascending sort of the group keys, the key order pandas groupby uses. -/
def sortKeysAsc (l : List (Nat × String)) : List (Nat × String) :=
  l.foldr insertKeyAsc []

/-- The hourly grouping of the error trend tab (src/monitor/app.py lines
206 to 214): floor each timestamp to its hour, group by the pair of hour
bucket and service_name, and emit the size of each non-empty group, with
the group keys in ascending order as pandas groupby produces them. -/
def hourlyErrorCounts (rows : List (Nat × String)) : List ((Nat × String) × Nat) :=
  let keyed := rows.map (fun r => (floorHour r.1, r.2))
  let keys := sortKeysAsc (dedupKeys keyed)
  keys.map (fun k => (k, (keyed.filter (fun r => r == k)).length))

/-- The metadata attribute found on a Python LogRecord by the getattr
call in MongoHandler.format_record: the attribute may be absent, may be
the Python value None, or may be a dictionary (modelled as an association
list with string values). -/
inductive MetaAttr where
  | absent : MetaAttr
  | null : MetaAttr
  | dict : List (String × String) → MetaAttr
deriving DecidableEq, Repr

/-- The value stored under the metadata key of a formatted log entry:
either the Python value None or a dictionary. -/
inductive MetaVal where
  | null : MetaVal
  | dict : List (String × String) → MetaVal
deriving DecidableEq, Repr

/-- Whether a metadata value is a traversable mapping. -/
def MetaVal.isMapping : MetaVal → Bool
  | .null => false
  | .dict _ => true

/-- A Python logging LogRecord as consumed by MongoHandler.format_record:
the message after argument substitution (the percent formatting is
wrapped in a bare try and cannot raise), the level name, the call-site
path and line, the optional extra attributes, and the formatted exception
text when exc_info is set. -/
structure LogRecord where
  msg : String
  levelname : String
  pathname : String
  lineno : Nat
  metadata : MetaAttr
  trace_id : Option String
  exc_info : Option String
deriving DecidableEq, Repr

/-- A formatted log document as built by MongoHandler.format_record. -/
structure LogEntry where
  timestamp : Nat
  service_name : String
  level : String
  message : String
  file_path : String
  line_number : Nat
  metadata : MetaVal
  trace_id : Option String
deriving DecidableEq, Repr

/-- MongoHandler.format_record (src/sdk/mongo_logger.py lines 77 to 125):
getattr defaults an absent metadata attribute to an empty dictionary but
passes any present value through, including None; level copies the
levelname verbatim; trace_id is injected only when truthy; when exc_info
is present the code evaluates a membership test on the metadata value,
which raises a TypeError when that value is None, and otherwise stores
the formatted stack under the error_stack key unless the key exists. -/
def format_record (service_name : String) (now : Nat) (r : LogRecord) :
    Except String LogEntry :=
  let md : MetaVal := match r.metadata with
    | .absent => .dict []
    | .null => .null
    | .dict m => .dict m
  let base : LogEntry :=
    { timestamp := now
      service_name := service_name
      level := r.levelname
      message := r.msg
      file_path := r.pathname
      line_number := r.lineno
      metadata := md
      trace_id := match r.trace_id with
        | some t => if t ≠ "" then some t else none
        | none => none }
  match r.exc_info with
  | none => .ok base
  | some stack =>
    match md with
    | .null => .error "TypeError: argument of type NoneType is not iterable"
    | .dict m =>
      let m2 := if m.any (fun kv => kv.1 == "error_stack") then m
                else m ++ [("error_stack", stack)]
      .ok { base with metadata := .dict m2 }

/-- The body of the try block of MongoHandler.emit: format the record and
put the result on the queue (queue.Queue has no capacity bound here, so
put itself never fails). -/
def emitCore (service_name : String) (now : Nat) (q : List LogEntry)
    (r : LogRecord) : Except String (List LogEntry) := do
  let e ← format_record service_name now r
  pure (q ++ [e])

/-- MongoHandler.emit (src/sdk/mongo_logger.py lines 64 to 75): the whole
body is wrapped in a try whose except clause calls the handleError hook
of logging.Handler (which reports locally and returns); the result pairs
the new queue with a flag telling whether the error hook ran. The Except
return type records whether an exception escapes to the caller. -/
def emit (service_name : String) (now : Nat) (q : List LogEntry)
    (r : LogRecord) : Except String (List LogEntry × Bool) :=
  match emitCore service_name now q r with
  | .ok q2 => .ok (q2, false)
  | .error _ => .ok (q, true)

/-- The state of the background worker of MongoHandler: the pending
queue (front at the head), the working batch, the time of the last flush,
the argument of every insert_many call issued so far, and the documents
the store accepted. Times are in tenths of a second, the granularity of
the 0.1 second queue poll. -/
structure SinkState where
  queue : List LogEntry
  batch : List LogEntry
  lastFlush : Nat
  attempts : List (List LogEntry)
  store : List LogEntry
deriving DecidableEq, Repr

/-- MongoHandler.flush_batch together with the batch handling around it
in the worker loop (src/sdk/mongo_logger.py lines 147 to 167): insert_many
is attempted on the non-empty batch; when the store raises (storeOk
false) the exception is caught and printed and nothing is persisted; in
both cases the caller clears the batch and resets the flush clock. -/
def flush_batch (storeOk : Bool) (t : Nat) (s : SinkState) : SinkState :=
  { s with batch := []
           lastFlush := t
           attempts := s.attempts ++ [s.batch]
           store := if storeOk then s.store ++ s.batch else s.store }

/-- One iteration of the loop of MongoHandler. worker (src/sdk/
mongo_logger.py lines 138 to 155) at time t: take one item from the queue
when one is available (otherwise the 0.1 second get times out and passes),
then flush exactly when the batch is non-empty and has reached batch_size
or flush_interval has elapsed since the last flush. -/
def workerStep (batch_size flush_interval : Nat) (storeOk : Bool) (t : Nat)
    (s : SinkState) : SinkState :=
  let s1 : SinkState := match s.queue with
    | [] => s
    | e :: rest => { s with queue := rest, batch := s.batch ++ [e] }
  let is_batch_full : Bool := batch_size ≤ s1.batch.length
  let is_time_to_flush : Bool := flush_interval ≤ t - s1.lastFlush
  if !s1.batch.isEmpty && (is_batch_full || is_time_to_flush) then
    flush_batch storeOk t s1
  else s1

/-- A run of the worker loop before stop is signalled: one iteration per
entry of the schedule, the entry giving the time at which that iteration
performs its checks. -/
def workerRun (batch_size flush_interval : Nat) (storeOk : Bool)
    (sched : List Nat) (s : SinkState) : SinkState :=
  sched.foldl (fun st t => workerStep batch_size flush_interval storeOk t st) s

/-- The worker loop after MongoHandler.close has set the stop event, with
bounded fuel: the loop condition keeps the loop alive exactly while the
queue is non-empty, each live iteration consumes one queued item, and
when the condition fails the thread returns, abandoning whatever is still
in the working batch. -/
def drainLoopFuel (batch_size flush_interval : Nat) (storeOk : Bool) (t : Nat) :
    Nat → SinkState → SinkState
  | 0, s => s
  | fuel + 1, s =>
    if s.queue.isEmpty then s
    else drainLoopFuel batch_size flush_interval storeOk t fuel
      (workerStep batch_size flush_interval storeOk t s)

/-- The complete drain phase entered when stop is set: one unit of fuel
per queued item always suffices because every live iteration dequeues
exactly one item. -/
def drainLoop (batch_size flush_interval : Nat) (storeOk : Bool) (t : Nat)
    (s : SinkState) : SinkState :=
  drainLoopFuel batch_size flush_interval storeOk t s.queue.length s

/-- Spec-side predicate, stated from the words of the specification of
the list operation: service equality applied unless the service argument
is absent, empty, or the match-all sentinel; level equality likewise;
each timestamp bound optional and conjoined when present; and a
case-insensitive match on message unless the search text is empty. Kept
separate from the source-side matchesQuery and buildQuery so that the two
can be compared. -/
def specMatches (service level : Option String) (start_time end_time : Option Nat)
    (search_text : Option String) (l : StoredLog) : Bool :=
  (match service with
    | none => true
    | some s => s == "" || s == "All" || l.service_name == s) &&
  (match level with
    | none => true
    | some s => s == "" || s == "All" || l.level == s) &&
  (match start_time with
    | none => true
    | some t => decide (t ≤ l.timestamp)) &&
  (match end_time with
    | none => true
    | some t => decide (l.timestamp ≤ t)) &&
  (match search_text with
    | none => true
    | some p => p == "" || ciSubstr p l.message)

/-- Stored document fixture: service A, level ERROR, oldest. -/
def exR1 : StoredLog :=
  { id := "a1", timestamp := 10, service_name := "A", level := "ERROR", message := "m1" }

/-- Stored document fixture: service A, level INFO. -/
def exR2 : StoredLog :=
  { id := "a2", timestamp := 20, service_name := "A", level := "INFO", message := "m2" }

/-- Stored document fixture: service B, level ERROR, newest. -/
def exR3 : StoredLog :=
  { id := "a3", timestamp := 30, service_name := "B", level := "ERROR", message := "m3" }

/-- A connected database holding the three-record fixture of the query
conjunction example. -/
def exDb : LogDatabase := { connected := true, collection := [exR1, exR2, exR3] }

/-- Trend fixture: ERROR for service X five minutes into an hour. -/
def tR1 : StoredLog :=
  { id := "b1", timestamp := 3005, service_name := "X", level := "ERROR", message := "e" }

/-- Trend fixture: ERROR for service X fifty minutes into the same hour. -/
def tR2 : StoredLog :=
  { id := "b2", timestamp := 3050, service_name := "X", level := "ERROR", message := "e" }

/-- Trend fixture: ERROR for service X five minutes into the next hour. -/
def tR3 : StoredLog :=
  { id := "b3", timestamp := 3065, service_name := "X", level := "ERROR", message := "e" }

/-- Trend fixture: an INFO record inside the window, to be excluded by
the level filter. -/
def tR4 : StoredLog :=
  { id := "b4", timestamp := 3050, service_name := "X", level := "INFO", message := "i" }

/-- Trend fixture: an ERROR record older than 24 hours, to be excluded by
the window filter. -/
def tR5 : StoredLog :=
  { id := "b5", timestamp := 1000, service_name := "X", level := "ERROR", message := "e" }

/-- A connected database holding the trend fixtures. -/
def tDb : LogDatabase :=
  { connected := true, collection := [tR1, tR2, tR3, tR4, tR5] }

/-- Queued entry fixture number one. -/
def qe1 : LogEntry :=
  { timestamp := 1, service_name := "s", level := "INFO", message := "one",
    file_path := "f", line_number := 1, metadata := .dict [], trace_id := none }

/-- Queued entry fixture number two. -/
def qe2 : LogEntry := { qe1 with message := "two" }

/-- Queued entry fixture number three. -/
def qe3 : LogEntry := { qe1 with message := "three" }

/-- Queued entry fixture number four. -/
def qe4 : LogEntry := { qe1 with message := "four" }

/-- Queued entry fixture number five. -/
def qe5 : LogEntry := { qe1 with message := "five" }

/-- Worker state with one queued entry and a fresh flush clock. -/
def sinkInit1 : SinkState :=
  { queue := [qe1], batch := [], lastFlush := 0, attempts := [], store := [] }

/-- Worker state with two queued entries and a fresh flush clock. -/
def sinkInit2 : SinkState :=
  { queue := [qe1, qe2], batch := [], lastFlush := 0, attempts := [], store := [] }

/-- Worker state with three queued entries and a fresh flush clock. -/
def sinkInit3 : SinkState :=
  { queue := [qe1, qe2, qe3], batch := [], lastFlush := 0, attempts := [], store := [] }

/-- Worker state with five queued entries and a fresh flush clock. -/
def sinkInit5 : SinkState :=
  { queue := [qe1, qe2, qe3, qe4, qe5], batch := [], lastFlush := 0,
    attempts := [], store := [] }

/-- An event whose caller passed metadata with the explicit value None
and no exception information. -/
def recNullMeta : LogRecord :=
  { msg := "m", levelname := "ERROR", pathname := "p", lineno := 3,
    metadata := .null, trace_id := none, exc_info := none }

/-- An event whose caller passed metadata with the explicit value None
while an exception is attached: the formatting path that raises. -/
def recBad : LogRecord := { recNullMeta with exc_info := some "Traceback" }

/-- An event emitted at a level outside the four recognized values. -/
def recCritical : LogRecord := { recNullMeta with levelname := "CRITICAL", metadata := .absent }

/-- The entry produced for recNullMeta: its metadata field is None. -/
def entryNullMeta : LogEntry :=
  { timestamp := 7, service_name := "svc", level := "ERROR", message := "m",
    file_path := "p", line_number := 3, metadata := .null, trace_id := none }

/-- The entry produced for recCritical: its level is the verbatim copy of
the levelname of the event, outside the four recognized values. -/
def entryCritical : LogEntry :=
  { timestamp := 7, service_name := "svc", level := "CRITICAL", message := "m",
    file_path := "p", line_number := 3, metadata := .dict [], trace_id := none }

/-- Whether a level string is one of the four values recognized by the
data model. -/
def recognizedLevel (s : String) : Bool :=
  s == "DEBUG" || s == "INFO" || s == "WARNING" || s == "ERROR"

theorem insertDesc_length (x : StoredLog) (l : List StoredLog) :
    (insertDesc x l).length = l.length + 1 := by
  induction l with
  | nil => rfl
  | cons y ys ih =>
    simp only [insertDesc]
    split
    · simp
    · simp [ih]

theorem sortDescTimestamp_length (l : List StoredLog) :
    (sortDescTimestamp l).length = l.length := by
  induction l with
  | nil => rfl
  | cons y ys ih =>
    show (insertDesc y (sortDescTimestamp ys)).length = ys.length + 1
    rw [insertDesc_length, ih]

theorem sentinelClause_eq (s v : String) :
    (match (if s ≠ "" && s ≠ "All" then some s else none) with
      | some x => v == x
      | none => true) = (s == "" || s == "All" || v == s) := by
  by_cases h1 : s = "" <;> by_cases h2 : s = "All" <;> simp [h1, h2]

theorem textClause_eq (p m : String) :
    (match (if p ≠ "" then some p else none) with
      | some x => ciSubstr x m
      | none => true) = (p == "" || ciSubstr p m) := by
  by_cases h : p = "" <;> simp [h]

theorem matchesQuery_buildQuery (service level : Option String)
    (start_time end_time : Option Nat) (search_text : Option String) (l : StoredLog) :
    matchesQuery (buildQuery service level start_time end_time search_text) l =
      specMatches service level start_time end_time search_text l := by
  unfold matchesQuery buildQuery specMatches
  cases service <;> cases level <;> cases search_text <;>
    cases start_time <;> cases end_time <;>
    simp only [sentinelClause_eq, textClause_eq]

/-- C5: get_logs builds a conjunctive filter, with service and level
equality skipped for an absent, empty, or sentinel All argument, optional
inclusive timestamp bounds conjoined when present, and a case-insensitive
message match skipped when the search text is empty; on a connected
database the result is exactly the matching records sorted by timestamp
descending with the cursor limit applied; on the three-record fixture,
querying service A at level ERROR returns exactly the first record. -/
theorem C5_conjunctive_filter :
    (∀ (c : List StoredLog) (limit : Nat) (service level : Option String)
        (start_time end_time : Option Nat) (search_text : Option String),
      get_logs { connected := true, collection := c } limit service level
          start_time end_time search_text =
        mongoLimit limit (sortDescTimestamp
          (c.filter (specMatches service level start_time end_time search_text)))) ∧
    get_logs exDb 100 (some "A") (some "ERROR") none none none = [exR1] := by
  constructor
  · intro c limit service level start_time end_time search_text
    have h : matchesQuery (buildQuery service level start_time end_time search_text) =
        specMatches service level start_time end_time search_text :=
      funext fun l =>
        matchesQuery_buildQuery service level start_time end_time search_text l
    simp [get_logs, h]
  · decide

/-- C6: the flush loop flushes exactly on the earlier of the size and
time triggers: with batch_size 5 and five records submitted with no
elapsed time, exactly one insert of exactly those five records happens
and the working batch is left empty; with flush_interval one second (ten
poll ticks) and two records submitted, exactly one insert of exactly
those two records happens by the poll at tick ten, within the interval
plus one poll tick of slack. -/
theorem C6_trigger_correctness :
    (workerRun 5 10 true [0, 0, 0, 0, 0] sinkInit5).attempts =
        [[qe1, qe2, qe3, qe4, qe5]] ∧
    (workerRun 5 10 true [0, 0, 0, 0, 0] sinkInit5).batch = [] ∧
    (workerRun 10 10 true [0, 1, 2, 3, 4, 5, 6, 7, 8, 9, 10] sinkInit2).attempts =
        [[qe1, qe2]] ∧
    (workerRun 10 10 true [0, 1, 2, 3, 4, 5, 6, 7, 8, 9, 10] sinkInit2).lastFlush = 10 ∧
    (workerRun 10 10 true [0, 1, 2, 3, 4, 5, 6, 7, 8, 9, 10] sinkInit2).lastFlush ≤ 10 + 1 := by
  decide

/-- C7: the error trend retrieves only ERROR records of the last 24
hours projected to timestamp and service, and the hourly grouping floors
each timestamp to its hour and counts per hour and service: errors for X
at minutes 5 and 50 of one hour and minute 5 of the next produce exactly
the buckets with counts 2 and 1, older errors and non-error records are
excluded, and empty hours produce no bucket. -/
theorem C7_trend_bucketing :
    get_error_trend tDb 4000 = [(3005, "X"), (3050, "X"), (3065, "X")] ∧
    hourlyErrorCounts (get_error_trend tDb 4000) =
      [((3000, "X"), 2), ((3060, "X"), 1)] := by
  decide

/-- C2: the claim that stopping with records still queued persists them
all fails on the code: with the stop event set, the drain loop pulls the
three queued records into its working batch, but since neither trigger
fires before the queue empties, the loop condition fails and the thread
returns with the batch unflushed, so zero of the three records reach the
store even though the store is healthy. -/
theorem C2_drain_loses_batch :
    drainLoop 10 10 true 0 sinkInit3 =
      { queue := [], batch := [qe1, qe2, qe3], lastFlush := 0,
        attempts := [], store := [] } ∧
    (drainLoop 10 10 true 0 sinkInit3).store.length = 0 := by
  decide

/-- C4 fails on the code: a malformed identifier makes the ObjectId
construction raise, the bare except swallows it and returns the Python
value None, exactly the value returned for a well-formed identifier that
matches no record, so the two outcomes are indistinguishable. -/
theorem C4_counterexample :
    isValidObjectId "zz" = false ∧
    isValidObjectId "aaaaaaaaaaaaaaaaaaaaaaaa" = true ∧
    get_log_by_id exDb "zz" = get_log_by_id exDb "aaaaaaaaaaaaaaaaaaaaaaaa" ∧
    get_log_by_id exDb "zz" = none := by
  decide

/-- C4 amended: a malformed identifier passed to get_log_by_id yields
the not-found value None, the same outcome as a well-formed identifier
matching no record, rather than a distinguishable invalid-argument
rejection. -/
theorem C4_amended_malformed_is_none (db : LogDatabase) (log_id : String)
    (h : isValidObjectId log_id = false) :
    get_log_by_id db log_id = none := by
  simp [get_log_by_id, h]

/-- Witness for C4 amended at the malformed identifier zz against the
three-record fixture database. -/
theorem C4_amended_witness : get_log_by_id exDb "zz" = none :=
  C4_amended_malformed_is_none exDb "zz" (by decide)

/-- C10: when the connection check at construction fails and the
connected flag is false, every read degrades to an empty result for all
argument values: get_logs and get_error_trend return the empty result
set, get_stats returns zero totals with an empty per-service mapping, and
get_log_by_id returns the not-found value. -/
theorem C10_disconnected_reads_degrade (db : LogDatabase)
    (h : db.connected = false) (limit : Nat) (service level : Option String)
    (start_time end_time : Option Nat) (search_text : Option String)
    (log_id : String) (now : Nat) :
    get_logs db limit service level start_time end_time search_text = [] ∧
    get_stats db = { total_logs := 0, error_logs := 0, service_counts := [] } ∧
    get_error_trend db now = [] ∧
    get_log_by_id db log_id = none := by
  refine ⟨?_, ?_, ?_, ?_⟩ <;>
    simp [get_logs, get_stats, get_error_trend, get_log_by_id, h]

/-- Witness for C10 at a concrete disconnected database and concrete
arguments. -/
theorem C10_witness :
    get_logs { connected := false, collection := [exR1] } 5 (some "A") none
        none none none = [] ∧
    get_stats { connected := false, collection := [exR1] } =
      { total_logs := 0, error_logs := 0, service_counts := [] } ∧
    get_error_trend { connected := false, collection := [exR1] } 4000 = [] ∧
    get_log_by_id { connected := false, collection := [exR1] } "a1" = none :=
  C10_disconnected_reads_degrade { connected := false, collection := [exR1] }
    rfl 5 (some "A") none none none none "a1" 4000

/-- C1 fails on the code: with a store whose insert raises, a full run of
the worker over the single queued record makes exactly one insert attempt
of that batch, clears the working batch unconditionally, and leaves the
store empty; the batch is discarded after the first failure, no second
insert of the same batch is ever attempted, and no error count exists in
the state the code keeps. -/
theorem C1_counterexample :
    workerRun 1 10 false [0, 0, 0] sinkInit1 =
      { queue := [], batch := [], lastFlush := 0, attempts := [[qe1]],
        store := [] } ∧
    (workerRun 1 10 false [0, 0, 0] sinkInit1).attempts.length = 1 := by
  decide

/-- C1 amended: when a flush trigger fires while the store raises on
insert, the worker logs the failure, makes exactly one insert attempt of
the accumulated batch, clears the batch unconditionally, and persists
nothing: the batch is dropped immediately with no retry at a later
trigger and no error-count metric. -/
theorem C1_amended_single_attempt_drop (batch_size flush_interval t : Nat)
    (s : SinkState) (e : LogEntry) (rest : List LogEntry)
    (hq : s.queue = e :: rest)
    (htrig : batch_size ≤ s.batch.length + 1 ∨ flush_interval ≤ t - s.lastFlush) :
    workerStep batch_size flush_interval false t s =
      { queue := rest, batch := [], lastFlush := t,
        attempts := s.attempts ++ [s.batch ++ [e]], store := s.store } := by
  unfold workerStep flush_batch
  rw [hq]
  rcases htrig with h | h <;>
    simp [List.length_append, Nat.succ_le_iff, h]

/-- Witness for C1 amended: the size trigger fires on the one queued
record with batch_size one and the store failing. -/
theorem C1_amended_witness :
    workerStep 1 10 false 0 sinkInit1 =
      { queue := [], batch := [], lastFlush := 0, attempts := [[qe1]],
        store := [] } := by
  have h := C1_amended_single_attempt_drop 1 10 0 sinkInit1 qe1 [] rfl
    (Or.inl (by decide))
  rw [h]
  decide

/-- C3 fails on the code: no hard upper bound on the size of a get_logs
result exists, because a zero limit is handed to cursor.limit, where it
means no limit at all: for every candidate bound there is a connected
database on which a query with limit zero and no filters returns more
records than the bound. -/
theorem C3_counterexample :
    ¬ ∃ B : Nat, ∀ (db : LogDatabase) (limit : Nat)
        (service level : Option String) (start_time end_time : Option Nat)
        (search_text : Option String),
      (get_logs db limit service level start_time end_time search_text).length ≤ B := by
  rintro ⟨B, hB⟩
  have h := hB { connected := true, collection := List.replicate (B + 1) exR1 }
    0 none none none none none
  have hall : matchesQuery (buildQuery none none none none none) = fun _ => true :=
    funext fun _ => rfl
  rw [show get_logs { connected := true, collection := List.replicate (B + 1) exR1 }
        0 none none none none none =
      sortDescTimestamp (List.replicate (B + 1) exR1) by
    simp [get_logs, mongoLimit, hall]] at h
  rw [sortDescTimestamp_length, List.length_replicate] at h
  omega

/-- C3 amended: a positive limit is a hard cap on the result size of
get_logs, and the absent-limit default of the code is the positive value
100; but a zero limit is passed through to the store, where it means no
limit, so no upper bound applies in that case. -/
theorem C3_amended_positive_limit_caps (db : LogDatabase) (limit : Nat)
    (service level : Option String) (start_time end_time : Option Nat)
    (search_text : Option String) (h : 0 < limit) :
    (get_logs db limit service level start_time end_time search_text).length ≤ limit := by
  unfold get_logs mongoLimit
  split
  · simp
  · split
    · rename_i hz
      simp at hz
      omega
    · simp

/-- Witness for C3 amended at the default limit 100 on the three-record
fixture database. -/
theorem C3_amended_witness :
    (get_logs exDb 100 none none none none none).length ≤ 100 :=
  C3_amended_positive_limit_caps exDb 100 none none none none none (by decide)

/-- C8 fails on the code: getattr only defaults an absent metadata
attribute, so a caller that supplies the explicit value None for metadata
gets a formatted entry whose metadata field is None, not a traversable
mapping; and the level field is the verbatim levelname of the event, so
an event at level CRITICAL produces an entry whose level is outside the
four recognized values. -/
theorem C8_counterexample :
    format_record "svc" 7 recNullMeta = Except.ok entryNullMeta ∧
    MetaVal.isMapping entryNullMeta.metadata = false ∧
    format_record "svc" 7 recCritical = Except.ok entryCritical ∧
    recognizedLevel entryCritical.level = false :=
  ⟨rfl, by decide, rfl, by decide⟩

/-- C8 amended: for every event whose metadata attribute is not the
explicit value None, formatting succeeds and yields an entry whose
metadata is a traversable mapping (the empty mapping when the attribute
is absent), whose timestamp is the emission instant, and whose level is
the verbatim levelname of the event; an explicit None metadata is passed
through as None instead. -/
theorem C8_amended_invariants (svc : String) (now : Nat) (r : LogRecord)
    (h : r.metadata ≠ MetaAttr.null) :
    ∃ e, format_record svc now r = Except.ok e ∧
      MetaVal.isMapping e.metadata = true ∧
      e.level = r.levelname ∧ e.timestamp = now := by
  cases hm : r.metadata with
  | null => exact absurd hm h
  | absent =>
    cases hx : r.exc_info with
    | none =>
      simp only [format_record, hm, hx]
      exact ⟨_, rfl, rfl, rfl, rfl⟩
    | some stack =>
      simp only [format_record, hm, hx]
      exact ⟨_, rfl, rfl, rfl, rfl⟩
  | dict m =>
    cases hx : r.exc_info with
    | none =>
      simp only [format_record, hm, hx]
      exact ⟨_, rfl, rfl, rfl, rfl⟩
    | some stack =>
      simp only [format_record, hm, hx]
      exact ⟨_, rfl, rfl, rfl, rfl⟩

/-- Witness for C8 amended at the CRITICAL event with an absent metadata
attribute. -/
theorem C8_amended_witness :
    recCritical.metadata ≠ MetaAttr.null ∧
    ∃ e, format_record "svc" 7 recCritical = Except.ok e ∧
      MetaVal.isMapping e.metadata = true ∧
      e.level = recCritical.levelname ∧ e.timestamp = 7 :=
  ⟨by decide, C8_amended_invariants "svc" 7 recCritical (by decide)⟩

/-- C9: emit never propagates an exception to the caller: for every
handler state and every event, including events whose formatting raises,
emit returns normally, with the failure absorbed by the handleError hook;
and the try clause is load bearing, because the formatting of the event
carrying None metadata together with exception information really does
raise inside the try block. -/
theorem C9_emit_never_raises :
    (∀ (svc : String) (now : Nat) (q : List LogEntry) (r : LogRecord),
      ∃ out, emit svc now q r = Except.ok out) ∧
    emitCore "svc" 7 [] recBad =
      Except.error "TypeError: argument of type NoneType is not iterable" := by
  constructor
  · intro svc now q r
    cases h : emitCore svc now q r with
    | ok q2 => exact ⟨(q2, false), by simp [emit, h]⟩
    | error err => exact ⟨(q, true), by simp [emit, h]⟩
  · rfl
